import Mathlib

/-!
Shallow embedding of the anchor-nft-staking program (Rust / Anchor), covering
the state types used by the `initialize_config` and `unstake` instruction
handlers, the handlers themselves, and the instruction surface declared in
`src/lib.rs`.  Machine integers are modelled as `Nat`/`Int` with explicit
`% 2^w` at the points where the Rust code performs a wrapping operation
(the `as u32` cast, and the unchecked u32 `*`, `+=`, u8 `-=`; in a build with
overflow checks the latter three would panic instead of wrapping, but in
neither build mode do they produce the program error `ArithmeticOverflow`).
Pubkeys are modelled as opaque `Nat` identifiers.
-/

namespace AnchorNftStaking

/-- The error enumeration of `src/error.rs` (`StakeError`). -/
inductive StakeError where
  | incorrectMint
  | incorrectCollection
  | collectionNotVerified
  | maxStakeReached
  | unstakeDelayNotMet
  | unauthorized
  | noPointsToClaim
  | invalidConfiguration
  | arithmeticOverflow
  deriving DecidableEq, Repr

/-- `SECONDS_PER_DAY: i64 = 86400` from `src/constants.rs`. -/
def SECONDS_PER_DAY : Int := 86400

/-- Modulus of the Rust `u32` type. -/
def U32_MOD : Nat := 2 ^ 32

/-- Modulus of the Rust `u8` type. -/
def U8_MOD : Nat := 256

/-- The Rust cast `x as u32` applied to an `i64` value: the low 32 bits of the
two's-complement representation, i.e. the Euclidean remainder modulo 2^32.
This cast wraps in every Rust build mode (it is defined behaviour, not an
overflow). -/
def i64_as_u32 (x : Int) : Nat := (x % (2 ^ 32 : Int)).toNat

/-- The unchecked u8 decrement `n -= 1` (unstake.rs line 119) modelled as a
wrapping subtraction; the wrap-around at `n = 0` is the underflow branch. -/
def u8_wrapping_dec (n : Nat) : Nat := (n + 255) % U8_MOD

/-- `StakeConfig` (the GlobalConfiguration record).  Modelled from the spec:
`src/state.rs` is not in the snapshot; the field names and widths are taken
from spec section 3 and from every use in `initialize_config.rs` (which
stores `points_per_stake: u8`, `max_stake: u8`, `freeze_period: u32` plus the
two derivation bumps) and `unstake.rs`. -/
structure StakeConfig where
  points_per_stake : Nat   -- u8
  max_stake : Nat          -- u8
  freeze_period : Nat      -- u32, in seconds
  reward_bump : Nat        -- u8
  bump : Nat               -- u8
  deriving DecidableEq, Repr

/-- `StakeAccount` (the per-asset StakeRecord).  Modelled from the spec:
`src/state.rs` is not in the snapshot; fields are taken from spec section 3
and the uses in `unstake.rs` (`owner`, `last_update: i64`, `bump`, plus the
staked asset's mint identity). -/
structure StakeAccount where
  owner : Nat              -- Pubkey of the staker
  mint : Nat               -- Pubkey of the staked asset
  last_update : Int        -- i64 unix timestamp
  bump : Nat               -- u8
  deriving DecidableEq, Repr

/-- `User` (the per-depositor HolderAccount).  Modelled from the spec:
`src/state.rs` is not in the snapshot; fields are taken from spec section 3
and the uses in `unstake.rs` (`amount_staked`, `points: u32`, `bump`). -/
structure User where
  owner : Nat              -- Pubkey of the depositor
  amount_staked : Nat      -- u8
  points : Nat             -- u32
  bump : Nat               -- u8
  deriving DecidableEq, Repr

/-- Who signs a custody-protocol CPI in `unstake.rs`. -/
inductive Signer where
  /-- The stake-record program-derived address, proven by the signer seeds
  `[b"stake", mint, config, bump]` built at unstake.rs lines 93-99. -/
  | stakeRecordPda
  /-- The requesting user's wallet. -/
  | userWallet
  deriving DecidableEq, Repr

/-- The externally visible custody-protocol steps performed by `unstake`. -/
inductive CustodyAction where
  /-- `ThawDelegatedAccountCpi ... .invoke_signed(signer_seeds)` (lines 102-108). -/
  | thawDelegated (signedBy : Signer)
  /-- `revoke(cpi_ctx)` with `authority = user` (lines 111-117). -/
  | revoke (authority : Signer)
  deriving DecidableEq, Repr

/-- The accounts named by the `UnStake` context, as constrained by the
`#[derive(Accounts)]` block of `unstake.rs` (the seed/authority constraints
themselves are checked by the runtime before the handler runs; the lamport
fields model the balances consumed by the `close = user` constraint). -/
structure UnStakeAccounts where
  user : Nat                    -- the transaction signer's Pubkey
  mint : Nat                    -- the asset mint's Pubkey
  config : StakeConfig
  stake_account : StakeAccount
  user_account : User
  user_lamports : Nat           -- lamport balance of the signer's wallet
  stake_lamports : Nat          -- rent lamports held by the stake record
  deriving DecidableEq, Repr

/-- The state committed by a successful `unstake` transaction.
`stake_account = none` records that the record was closed by the
`close = user` constraint, its rent refunded into `user_lamports`. -/
structure UnStakeResult where
  config : StakeConfig
  user_account : User
  stake_account : Option StakeAccount
  user_lamports : Nat
  actions : List CustodyAction
  deriving DecidableEq, Repr

/-- `UnStake::unstake` (unstake.rs lines 72-129).  `now` is the value of
`Clock::get()?.unix_timestamp`; the handler reads the clock twice (lines 74
and 122) but both reads happen in the same transaction and return the same
timestamp.  A returned error aborts the whole transaction, so no state is
committed on the error paths — the `Except.error` carries no result state.
Rust's i64 `/` truncates toward zero, which is `Int.tdiv`. -/
def unstake (a : UnStakeAccounts) (now : Int) : Except StakeError UnStakeResult :=
  -- Check freeze period (lines 74-79): require!(time_elapsed >= freeze_period)
  let time_elapsed : Int := now - a.stake_account.last_update
  if time_elapsed < (a.config.freeze_period : Int) then
    Except.error StakeError.unstakeDelayNotMet
  else
  -- Verify ownership (lines 82-85): require!(stake_account.owner == user.key())
  if a.stake_account.owner ≠ a.user then
    Except.error StakeError.unauthorized
  else
    -- Custody handshake (lines 93-117): thaw signed with the stake PDA seeds,
    -- then revoke with the user as authority.
    let actions := [CustodyAction.thawDelegated Signer.stakeRecordPda,
                    CustodyAction.revoke Signer.userWallet]
    -- self.user_account.amount_staked -= 1 (line 119), unchecked u8
    let amount_staked' := u8_wrapping_dec a.user_account.amount_staked
    -- Calculate points accumulated (lines 122-126)
    let time_staked : Int := now - a.stake_account.last_update
    let days_staked : Int := Int.tdiv time_staked SECONDS_PER_DAY
    let points_earned : Nat :=
      (i64_as_u32 days_staked * a.config.points_per_stake) % U32_MOD
    let points' : Nat := (a.user_account.points + points_earned) % U32_MOD
    Except.ok
      { config := a.config
        user_account :=
          { a.user_account with amount_staked := amount_staked', points := points' }
        stake_account := none
        user_lamports := a.user_lamports + a.stake_lamports
        actions := actions }

/-- The points-accrual arithmetic of unstake.rs lines 122-126 in isolation:
`days_staked = time_staked / SECONDS_PER_DAY` and
`points_earned = (days_staked as u32) * (points_per_stake as u32)`. -/
def points_earned_of (last_update now : Int) (points_per_stake : Nat) : Nat :=
  (i64_as_u32 (Int.tdiv (now - last_update) SECONDS_PER_DAY) * points_per_stake) % U32_MOD

/-- `InitializeConfig::initialize_config` (initialize_config.rs lines 30-51):
`require!(points_per_stake > 0 && max_stake > 0 && freeze_period > 0,
StakeError::InvalidConfiguration)`, then `config.set_inner(...)` with the
three parameters and the two derivation bumps. -/
def initialize_config (points_per_stake max_stake freeze_period : Nat)
    (reward_bump bump : Nat) : Except StakeError StakeConfig :=
  if points_per_stake > 0 ∧ max_stake > 0 ∧ freeze_period > 0 then
    Except.ok
      { points_per_stake := points_per_stake
        max_stake := max_stake
        freeze_period := freeze_period
        reward_bump := reward_bump
        bump := bump }
  else
    Except.error StakeError.invalidConfiguration

/-- Failure modes of the whole configure transaction: either the runtime
refuses to create the account, or the handler returns a program error. -/
inductive ConfigureError where
  | alreadyInitialized
  | program (e : StakeError)
  deriving DecidableEq, Repr

/-- Modelled from the spec: the host runtime's create-once semantics for the
`init` account at the deterministic `[b"config"]` address
(initialize_config.rs lines 22-23 declare the constraint; the runtime
behaviour itself is not in src/).  Spec section 4.1: creation "must fail if a
configuration already exists (enforced by the host's create-once semantics
for the deterministic address)".  `slot` is the current content of the
deterministic config address. -/
def configure (slot : Option StakeConfig)
    (points_per_stake max_stake freeze_period reward_bump bump : Nat) :
    Except ConfigureError StakeConfig :=
  match slot with
  | some _ => Except.error ConfigureError.alreadyInitialized
  | none =>
    match initialize_config points_per_stake max_stake freeze_period reward_bump bump with
    | Except.ok cfg => Except.ok cfg
    | Except.error e => Except.error (ConfigureError.program e)

/-- The externally invokable instruction surface declared by the
`#[program] pub mod anchor_nft_staking` block of `src/lib.rs` (lines 14-21):
the public functions of that module, in declaration order.  The module
declares exactly one instruction, `initialize`; the handlers
`InitializeConfig::initialize_config` and `UnStake::unstake` exist in
`src/instructions/` but no instruction in the program module dispatches
them. -/
def programInstructions : List String := ["initialize"]

/-- The state a successful `unstake` commits, as a function of the accounts and
the clock; definitionally equal to the record built on the success path of
`unstake`. -/
def unstake_success_result (a : UnStakeAccounts) (now : Int) : UnStakeResult :=
  { config := a.config
    user_account :=
      { a.user_account with
        amount_staked := u8_wrapping_dec a.user_account.amount_staked
        points := (a.user_account.points +
          points_earned_of a.stake_account.last_update now a.config.points_per_stake)
          % U32_MOD }
    stake_account := none
    user_lamports := a.user_lamports + a.stake_lamports
    actions := [CustodyAction.thawDelegated Signer.stakeRecordPda,
                CustodyAction.revoke Signer.userWallet] }

/-- The configuration of the concrete scenario in spec section 8:
pointsPerStake = 10, maxStake = 3, freezePeriodSeconds = 86400. -/
def cfgEx : StakeConfig :=
  { points_per_stake := 10, max_stake := 3, freeze_period := 86400
    reward_bump := 4, bump := 5 }

/-- A concrete `UnStake` account set: user 7 staked mint 3 at time 0 and holds
one staked asset with no points yet. -/
def aEx : UnStakeAccounts :=
  { user := 7, mint := 3, config := cfgEx
    stake_account := { owner := 7, mint := 3, last_update := 0, bump := 6 }
    user_account := { owner := 7, amount_staked := 1, points := 0, bump := 2 }
    user_lamports := 100, stake_lamports := 9 }

/-- The state committed by `unstake aEx 86401`: one full day staked earns
10 points, the stake record is closed and its 9 rent lamports refunded. -/
def resEx : UnStakeResult :=
  { config := cfgEx
    user_account := { owner := 7, amount_staked := 0, points := 10, bump := 2 }
    stake_account := none
    user_lamports := 109
    actions := [CustodyAction.thawDelegated Signer.stakeRecordPda,
                CustodyAction.revoke Signer.userWallet] }

/-- Accounts in which the stake record's owner (8) is not the requester (7). -/
def aC1 : UnStakeAccounts :=
  { aEx with stake_account := { owner := 8, mint := 3, last_update := 0, bump := 6 } }

/-- Accounts with the maximal u8 rate `points_per_stake = 255`. -/
def aC2 : UnStakeAccounts :=
  { aEx with config := { cfgEx with points_per_stake := 255 } }

/-- Accounts with rate `points_per_stake = 1`. -/
def aC3 : UnStakeAccounts :=
  { aEx with config := { cfgEx with points_per_stake := 1 } }

/-- The state committed by `unstake aC3 371085174374400`: the day count 2^32
is cast to u32 as 0, so 0 points are credited. -/
def resC3 : UnStakeResult :=
  { config := { points_per_stake := 1, max_stake := 3, freeze_period := 86400
                reward_bump := 4, bump := 5 }
    user_account := { owner := 7, amount_staked := 0, points := 0, bump := 2 }
    stake_account := none
    user_lamports := 109
    actions := [CustodyAction.thawDelegated Signer.stakeRecordPda,
                CustodyAction.revoke Signer.userWallet] }

/-- Accounts whose holder already has 2^32 - 1 accumulated points, one short
of the u32 limit. -/
def aC10 : UnStakeAccounts :=
  { aEx with
    user_account := { owner := 7, amount_staked := 1, points := 4294967295, bump := 2 } }

/-- The state committed by `unstake aC10 86401`: the 10 newly earned points
are added to 4294967295 by the unchecked u32 `+=`, which wraps to 9. -/
def resC10 : UnStakeResult :=
  { config := cfgEx
    user_account := { owner := 7, amount_staked := 0, points := 9, bump := 2 }
    stake_account := none
    user_lamports := 109
    actions := [CustodyAction.thawDelegated Signer.stakeRecordPda,
                CustodyAction.revoke Signer.userWallet] }

/-! Helper lemmas shared by the claim theorems. -/

/-- Truncating division of nonnegative integers agrees with `Nat` division. -/
theorem tdiv_ofNat (m n : Nat) : Int.tdiv (m : Int) (n : Int) = ((m / n : Nat) : Int) := rfl

/-- The i64→u32 cast of a nonnegative value is reduction modulo 2^32. -/
theorem i64_as_u32_ofNat (x : Nat) : i64_as_u32 (x : Int) = x % 2 ^ 32 := by
  unfold i64_as_u32
  rw [show ((2 : Int) ^ 32) = (4294967296 : Int) from by norm_num,
    show ((2 : Nat) ^ 32) = (4294967296 : Nat) from by norm_num]
  omega

/-- When the elapsed time is `k` full days plus `r < 86400` seconds and the
mathematical product `k * P` fits in u32, the unchecked computation of
unstake.rs lines 122-126 is exact. -/
theorem points_earned_of_eq (last now : Int) (P k r : Nat)
    (hnow : now = last + ((k * 86400 + r : Nat) : Int)) (hr : r < 86400)
    (hb : k * P < U32_MOD) :
    points_earned_of last now P = k * P := by
  have hsub : now - last = ((k * 86400 + r : Nat) : Int) := by rw [hnow]; ring
  have hdiv : (k * 86400 + r) / 86400 = k := by
    rw [Nat.add_comm, Nat.add_mul_div_right _ _ (by norm_num : 0 < 86400),
      Nat.div_eq_of_lt hr, Nat.zero_add]
  unfold points_earned_of
  rw [hsub, show SECONDS_PER_DAY = ((86400 : Nat) : Int) from rfl, tdiv_ofNat, hdiv,
    i64_as_u32_ofNat]
  rcases Nat.eq_zero_or_pos P with hP | hP
  · subst hP
    simp
  · have hk : k < 2 ^ 32 := lt_of_le_of_lt (Nat.le_mul_of_pos_right k hP) hb
    rw [Nat.mod_eq_of_lt hk]
    exact Nat.mod_eq_of_lt hb

/-- A successful `unstake` commits exactly `unstake_success_result`. -/
theorem unstake_ok_elim (a : UnStakeAccounts) (now : Int) (res : UnStakeResult)
    (hok : unstake a now = Except.ok res) :
    res = unstake_success_result a now := by
  simp only [unstake] at hok
  split_ifs at hok
  injection hok with h
  exact h.symm

/-! Claim theorems. -/

/-- C1 (counterexample): a requester (7) who is not the StakeRecord's owner (8)
and unstakes 5 seconds after the stake, well inside the 86400-second freeze
period, is rejected with UnstakeDelayNotMet — not with Unauthorized as the
claim demands "regardless of how much time has elapsed": the freeze-period
check at unstake.rs lines 76-79 runs before the ownership check at lines
82-85. -/
theorem unauthorized_not_first_counterexample :
    aC1.user ≠ aC1.stake_account.owner ∧
    unstake aC1 5 = Except.error StakeError.unstakeDelayNotMet ∧
    StakeError.unstakeDelayNotMet ≠ StakeError.unauthorized :=
  ⟨by decide, by rfl, by decide⟩

/-- C1 (amended): once the elapsed time has met the freeze period, any unstake
request whose requester is not the StakeRecord's recorded owner fails with
Unauthorized before the custody handshake (the error path commits no state and
performs no thaw/revoke); when the freeze period is unmet, the timing check
runs first and UnstakeDelayNotMet preempts Unauthorized. -/
theorem unstake_unauthorized_after_delay (a : UnStakeAccounts) (now : Int)
    (hdelay : (a.config.freeze_period : Int) ≤ now - a.stake_account.last_update)
    (howner : a.stake_account.owner ≠ a.user) :
    unstake a now = Except.error StakeError.unauthorized := by
  simp [unstake, not_lt.mpr hdelay, howner]

/-- C1 (witness): owner 8, requester 7, unstaking 86401 seconds after a stake
under freeze period 86400 fails with Unauthorized. -/
theorem unstake_unauthorized_after_delay_witness :
    unstake aC1 86401 = Except.error StakeError.unauthorized :=
  unstake_unauthorized_after_delay aC1 86401 (by decide) (by decide)

/-- C2 (code bug): with points_per_stake = 255 and an unstake 2^32 * 86400
seconds after the stake, the day count is 2^32, so the mathematical product
2^32 * 255 overflows u32; the claim (and spec sections 4.3 and 5) demand the
transaction fail with ArithmeticOverflow, and error.rs defines that error, but
unstake.rs lines 122-126 use an unchecked `as u32` cast and unchecked u32
multiplication: the transaction succeeds and credits the wrapped value 0. -/
theorem unstake_overflow_wraps_silently :
    Int.tdiv (371085174374400 - aC2.stake_account.last_update) SECONDS_PER_DAY
      = 4294967296 ∧
    U32_MOD ≤ 4294967296 * aC2.config.points_per_stake ∧
    unstake aC2 371085174374400 =
      Except.ok
        { config := { points_per_stake := 255, max_stake := 3, freeze_period := 86400
                      reward_bump := 4, bump := 5 }
          user_account := { owner := 7, amount_staked := 0, points := 0, bump := 2 }
          stake_account := none
          user_lamports := 109
          actions := [CustodyAction.thawDelegated Signer.stakeRecordPda,
                      CustodyAction.revoke Signer.userWallet] } :=
  ⟨by decide, by decide, by rfl⟩

/-- C3 (counterexample): with T0 = 0, F = 86400, P = 1, k = 2^32 and r = 0
(so k ≥ ceil(F/86400) = 1), the unstake at T0 + k*86400 + r succeeds but
credits 0 points, not k * P = 2^32: the i64→u32 cast of the day count wraps. -/
theorem reward_determinism_counterexample :
    (371085174374400 : Int)
      = aC3.stake_account.last_update + ((4294967296 * 86400 + 0 : Nat) : Int) ∧
    (aC3.config.freeze_period + 86399) / 86400 ≤ 4294967296 ∧
    unstake aC3 371085174374400 = Except.ok resC3 ∧
    resC3.user_account.points = 0 ∧
    aC3.user_account.points + 4294967296 * aC3.config.points_per_stake ≠ 0 :=
  ⟨by decide, by decide, by rfl, by rfl, by decide⟩

/-- C3 (amended): for every successful unstake with lastUpdate = T0 and
pointsPerStake = P executed at T0 + k*86400 + r with 0 ≤ r < 86400 and
k ≥ ceil(freezePeriodSeconds/86400), the points credited to the holder's
points equal exactly k * P, independent of r — provided the mathematical
product k * P and the accumulated total points + k * P fit in u32 (beyond
that width the unchecked cast, multiplication and addition wrap). -/
theorem reward_determinism_bounded (a : UnStakeAccounts) (now : Int)
    (k r : Nat) (res : UnStakeResult)
    (hnow : now = a.stake_account.last_update + ((k * 86400 + r : Nat) : Int))
    (hr : r < 86400)
    (_hk : (a.config.freeze_period + 86399) / 86400 ≤ k)
    (hok : unstake a now = Except.ok res)
    (hb : k * a.config.points_per_stake < U32_MOD)
    (hpts : a.user_account.points + k * a.config.points_per_stake < U32_MOD) :
    res.user_account.points
      = a.user_account.points + k * a.config.points_per_stake := by
  have h := unstake_ok_elim a now res hok
  subst h
  have hpe := points_earned_of_eq a.stake_account.last_update now
    a.config.points_per_stake k r hnow hr hb
  unfold unstake_success_result
  dsimp
  rw [hpe]
  exact Nat.mod_eq_of_lt hpts

/-- C3 (witness): the spec section 8 scenario — stake at 0 with P = 10,
F = 86400, unstake at 86401 = 1*86400 + 1 credits exactly 1 * 10 points. -/
theorem reward_determinism_bounded_witness :
    resEx.user_account.points
      = aEx.user_account.points + 1 * aEx.config.points_per_stake :=
  reward_determinism_bounded aEx 86401 1 1 resEx (by decide) (by decide)
    (by decide) (by rfl) (by decide) (by decide)

/-- C4: whenever the elapsed time since the stake record's last_update is
strictly below the configured freeze period, unstake fails with
UnstakeDelayNotMet; the error aborts the transaction before any state is
committed (the error path of the model carries no result state), so no
HolderAccount, StakeRecord or GlobalConfiguration mutation occurs. -/
theorem unstake_delay_not_met (a : UnStakeAccounts) (now : Int)
    (h : now - a.stake_account.last_update < (a.config.freeze_period : Int)) :
    unstake a now = Except.error StakeError.unstakeDelayNotMet := by
  simp [unstake, h]

/-- C4 (witness): unstaking at 86399 seconds under a freeze period of 86400
fails with UnstakeDelayNotMet (spec section 8 scenario). -/
theorem unstake_delay_not_met_witness :
    unstake aEx 86399 = Except.error StakeError.unstakeDelayNotMet :=
  unstake_delay_not_met aEx 86399 (by decide)

/-- C5: under the invariant that an existing StakeRecord implies
amount_staked ≥ 1 (and the u8 range bound), the unchecked decrement at
unstake.rs line 119 cannot underflow on any successful unstake: the resulting
amount_staked is exactly the old value minus 1 (and, being a Nat, is ≥ 0),
i.e. the wrap-around branch of `u8_wrapping_dec` is not taken. -/
theorem amount_staked_decrement_safe (a : UnStakeAccounts) (now : Int)
    (res : UnStakeResult)
    (hinv : 1 ≤ a.user_account.amount_staked)
    (hu8 : a.user_account.amount_staked < U8_MOD)
    (hok : unstake a now = Except.ok res) :
    res.user_account.amount_staked = a.user_account.amount_staked - 1 ∧
    res.user_account.amount_staked + 1 = a.user_account.amount_staked := by
  have h := unstake_ok_elim a now res hok
  subst h
  unfold unstake_success_result u8_wrapping_dec U8_MOD at *
  dsimp
  omega

/-- C5 (witness): unstaking with amount_staked = 1 leaves amount_staked = 0,
one below the old value. -/
theorem amount_staked_decrement_safe_witness :
    resEx.user_account.amount_staked = aEx.user_account.amount_staked - 1 ∧
    resEx.user_account.amount_staked + 1 = aEx.user_account.amount_staked :=
  amount_staked_decrement_safe aEx 86401 resEx (by decide) (by decide) (by rfl)

/-- C6: initialize_config fails with InvalidConfiguration exactly when one of
points_per_stake, max_stake, freeze_period is zero, and on success the created
configuration record holds exactly the three supplied values. -/
theorem initialize_config_validation (p m f rb b : Nat) :
    (initialize_config p m f rb b = Except.error StakeError.invalidConfiguration
      ↔ p = 0 ∨ m = 0 ∨ f = 0) ∧
    ∀ cfg, initialize_config p m f rb b = Except.ok cfg →
      cfg.points_per_stake = p ∧ cfg.max_stake = m ∧ cfg.freeze_period = f := by
  by_cases h : p > 0 ∧ m > 0 ∧ f > 0
  · unfold initialize_config
    rw [if_pos h]
    refine ⟨⟨fun hx => Except.noConfusion hx, fun hx => absurd hx (by omega)⟩,
      fun cfg hcfg => ?_⟩
    injection hcfg with hc
    rw [← hc]
    exact ⟨rfl, rfl, rfl⟩
  · unfold initialize_config
    rw [if_neg h]
    exact ⟨⟨fun _ => by omega, fun _ => rfl⟩, fun cfg hcfg => Except.noConfusion hcfg⟩

/-- C6 (witness): points_per_stake = 0 is rejected with InvalidConfiguration. -/
theorem initialize_config_validation_witness :
    initialize_config 0 3 86400 4 5
      = Except.error StakeError.invalidConfiguration :=
  (initialize_config_validation 0 3 86400 4 5).1.mpr (Or.inl rfl)

/-- C7: once a first configure has created the GlobalConfiguration record in
the deterministic config slot, any second configure against that slot fails
with the host's create-once error, whatever parameters it supplies. -/
theorem configure_create_once (cfg : StakeConfig)
    (p m f rb b p2 m2 f2 rb2 b2 : Nat)
    (_hfirst : configure none p m f rb b = Except.ok cfg) :
    configure (some cfg) p2 m2 f2 rb2 b2
      = Except.error ConfigureError.alreadyInitialized := rfl

/-- C7 (witness): after configure(10, 3, 86400) succeeds, re-running configure
with the same parameters against the filled slot fails. -/
theorem configure_create_once_witness :
    configure (some cfgEx) 10 3 86400 4 5
      = Except.error ConfigureError.alreadyInitialized :=
  configure_create_once cfgEx 10 3 86400 4 5 10 3 86400 4 5 (by rfl)

/-- C8 (counterexample): the instruction surface declared in src/lib.rs is not
the four claimed operations — it has one entry and contains none of configure,
stake, unstake, claim. -/
theorem instruction_surface_counterexample :
    programInstructions ≠ ["configure", "stake", "unstake", "claim"] ∧
    programInstructions.length = 1 ∧
    "unstake" ∉ programInstructions := by
  refine ⟨?_, rfl, ?_⟩ <;> decide

/-- C8 (amended): the externally invokable instruction surface declared by the
program module consists of exactly one operation, `initialize`; none of
configure, stake, unstake, claim is dispatchable, even though the
initialize_config and unstake handlers are implemented in
src/instructions/. -/
theorem instruction_surface_single :
    programInstructions = ["initialize"] ∧
    "configure" ∉ programInstructions ∧
    "stake" ∉ programInstructions ∧
    "unstake" ∉ programInstructions ∧
    "claim" ∉ programInstructions := by
  refine ⟨rfl, ?_, ?_, ?_, ?_⟩ <;> decide

/-- C9: every successful unstake performs exactly the two custody steps in
order — first the thaw (movement unlock), signed by the stake record's own
program-derived authority via the signer seeds of unstake.rs lines 93-99, then
the revocation of the delegated authority. -/
theorem unstake_thaw_before_revoke (a : UnStakeAccounts) (now : Int)
    (res : UnStakeResult) (hok : unstake a now = Except.ok res) :
    res.actions = [CustodyAction.thawDelegated Signer.stakeRecordPda,
                   CustodyAction.revoke Signer.userWallet] := by
  have h := unstake_ok_elim a now res hok
  subst h
  rfl

/-- C9 (witness): the concrete successful unstake of aEx performs thaw then
revoke. -/
theorem unstake_thaw_before_revoke_witness :
    resEx.actions = [CustodyAction.thawDelegated Signer.stakeRecordPda,
                     CustodyAction.revoke Signer.userWallet] :=
  unstake_thaw_before_revoke aEx 86401 resEx (by rfl)

/-- C10 (counterexample): a successful unstake against a holder with
4294967295 accumulated points, earning 10 more (one full day at rate 10),
commits a points total of 9, not 4294967295 + 10: the unchecked u32 `+=` at
unstake.rs line 126 wraps, so the committed points are not "increased by the
computed points_earned" as the claim states — the total even decreases. -/
theorem unstake_frame_counterexample :
    unstake aC10 86401 = Except.ok resC10 ∧
    resC10.user_account.points
      ≠ aC10.user_account.points +
        points_earned_of aC10.stake_account.last_update 86401
          aC10.config.points_per_stake :=
  ⟨by rfl, by decide⟩

/-- C10 (amended): under the amount-staked invariant (the C5 precondition,
stated by the spec as an invariant) and provided the accumulated total
points + points_earned stays below 2^32 — beyond it the unchecked u32
addition wraps — a successful unstake changes exactly: amount_staked (down by
1), points (up by the computed points_earned), and the stake record (closed,
its rent lamports refunded to the requester); the configuration and the
holder account's other fields (owner, bump) are unchanged. -/
theorem unstake_frame (a : UnStakeAccounts) (now : Int) (res : UnStakeResult)
    (hinv : 1 ≤ a.user_account.amount_staked)
    (hu8 : a.user_account.amount_staked < U8_MOD)
    (hpts : a.user_account.points +
      points_earned_of a.stake_account.last_update now a.config.points_per_stake
        < U32_MOD)
    (hok : unstake a now = Except.ok res) :
    res.config = a.config ∧
    res.stake_account = none ∧
    res.user_lamports = a.user_lamports + a.stake_lamports ∧
    res.user_account.owner = a.user_account.owner ∧
    res.user_account.bump = a.user_account.bump ∧
    res.user_account.amount_staked + 1 = a.user_account.amount_staked ∧
    res.user_account.points = a.user_account.points +
      points_earned_of a.stake_account.last_update now a.config.points_per_stake := by
  have h := unstake_ok_elim a now res hok
  subst h
  refine ⟨rfl, rfl, rfl, rfl, rfl, ?_, ?_⟩
  · unfold unstake_success_result u8_wrapping_dec U8_MOD at *
    dsimp
    omega
  · unfold unstake_success_result
    dsimp
    exact Nat.mod_eq_of_lt hpts

/-- C10 (witness): the concrete successful unstake of aEx touches exactly the
claimed state: amount 1 → 0, points 0 → 10, stake record closed with its 9
lamports refunded, config and the other holder fields unchanged. -/
theorem unstake_frame_witness :
    resEx.config = aEx.config ∧
    resEx.stake_account = none ∧
    resEx.user_lamports = aEx.user_lamports + aEx.stake_lamports ∧
    resEx.user_account.owner = aEx.user_account.owner ∧
    resEx.user_account.bump = aEx.user_account.bump ∧
    resEx.user_account.amount_staked + 1 = aEx.user_account.amount_staked ∧
    resEx.user_account.points = aEx.user_account.points +
      points_earned_of aEx.stake_account.last_update 86401
        aEx.config.points_per_stake :=
  unstake_frame aEx 86401 resEx (by decide) (by decide) (by decide) (by rfl)

end AnchorNftStaking
